import Mathlib

/-!
Verification of the jpegoptim-py packaging pipeline.

The development shallowly embeds the two source files of the repository:
`src/setup.py` (platform table, download URL construction, the
download/verify/extract/install pipeline and the `fetch_binaries` build
command) and `src/scripts/bump_jpegoptim.py` (the maintenance script that
rewrites the pinned version and the checksum table in `setup.py`).

Bytes are modelled as `List Nat` (each entry < 256), machine words as `Nat`
reduced `% 2 ^ 32` where the hash arithmetic overflows, external effects
(HTTP, the zip container, the filesystem) as explicit values or oracle
functions threaded through the definitions, and fallible code as
`Except String`.
-/

namespace JpegoptimPy

/-! ### SHA-256 (the `hashlib.sha256(...).hexdigest()` calls of the source)

A byte-level implementation of FIPS 180-4 SHA-256, producing the lowercase
hexadecimal digest exactly as `hashlib`'s `hexdigest` does. All recursion is
structural or fuel-driven so the kernel can evaluate digests of concrete
inputs. -/

/-- The constant `2 ^ 32`, the word modulus of SHA-256 arithmetic. -/
def M32 : Nat := 4294967296

/-- Right rotation of a 32-bit word. -/
def rotr32 (n w : Nat) : Nat := ((w >>> n) ||| (w <<< (32 - n))) % M32

/-- The 64 round constants of SHA-256 (FIPS 180-4 section 4.2.2, written in
decimal). -/
def sha256K : List Nat :=
  [1116352408, 1899447441, 3049323471, 3921009573, 961987163,
   1508970993, 2453635748, 2870763221, 3624381080, 310598401,
   607225278, 1426881987, 1925078388, 2162078206, 2614888103,
   3248222580, 3835390401, 4022224774, 264347078, 604807628,
   770255983, 1249150122, 1555081692, 1996064986, 2554220882,
   2821834349, 2952996808, 3210313671, 3336571891, 3584528711,
   113926993, 338241895, 666307205, 773529912, 1294757372,
   1396182291, 1695183700, 1986661051, 2177026350, 2456956037,
   2730485921, 2820302411, 3259730800, 3345764771, 3516065817,
   3600352804, 4094571909, 275423344, 430227734, 506948616,
   659060556, 883997877, 958139571, 1322822218, 1537002063,
   1747873779, 1955562222, 2024104815, 2227730452, 2361852424,
   2428436474, 2756734187, 3204031479, 3329325298]

/-- The initial hash value of SHA-256 (FIPS 180-4 section 5.3.3, written in
decimal). -/
def sha256H0 : List Nat :=
  [1779033703, 3144134277, 1013904242, 2773480762, 1359893119,
   2600822924, 528734635, 1541459225]

/-- The big sigma-0 word function. -/
def bigS0 (x : Nat) : Nat := rotr32 2 x ^^^ rotr32 13 x ^^^ rotr32 22 x

/-- The big sigma-1 word function. -/
def bigS1 (x : Nat) : Nat := rotr32 6 x ^^^ rotr32 11 x ^^^ rotr32 25 x

/-- The small sigma-0 word function. -/
def smallS0 (x : Nat) : Nat := rotr32 7 x ^^^ rotr32 18 x ^^^ (x >>> 3)

/-- The small sigma-1 word function. -/
def smallS1 (x : Nat) : Nat := rotr32 17 x ^^^ rotr32 19 x ^^^ (x >>> 10)

/-- The choice word function (`¬x` taken within 32 bits). -/
def chF (x y z : Nat) : Nat := (x &&& y) ^^^ ((x ^^^ 0xffffffff) &&& z)

/-- The majority word function. -/
def majF (x y z : Nat) : Nat := (x &&& y) ^^^ (x &&& z) ^^^ (y &&& z)

/-- The `k` big-endian bytes of `n`. -/
def beBytes (k : Nat) (n : Nat) : List Nat :=
  (List.range k).map (fun i => (n >>> (8 * (k - 1 - i))) % 256)

/-- SHA-256 padding: a `0x80` byte, zeros up to 56 mod 64, and the bit length
as eight big-endian bytes. -/
def sha256pad (msg : List Nat) : List Nat :=
  msg ++ [128] ++ List.replicate ((120 - (msg.length + 1) % 64) % 64) 0
      ++ beBytes 8 (msg.length * 8)

/-- Big-endian 32-bit words of a byte list (whole groups of four only). -/
def toWords : List Nat → List Nat
  | b0 :: b1 :: b2 :: b3 :: rest =>
      (((b0 * 256 + b1) * 256 + b2) * 256 + b3) :: toWords rest
  | _ => []

/-- Split into 64-byte chunks, fuel-driven so the kernel can evaluate it. -/
def chunks64F : Nat → List Nat → List (List Nat)
  | 0, _ => []
  | _, [] => []
  | fuel + 1, l => l.take 64 :: chunks64F fuel (l.drop 64)

/-- Split a byte list into 64-byte chunks. -/
def chunks64 (l : List Nat) : List (List Nat) := chunks64F l.length l

/-- Extend the message schedule by `n` words; the accumulator holds the
schedule so far, most recent word first. -/
def extendSchedule : Nat → List Nat → List Nat
  | 0, rw => rw
  | n + 1, rw =>
      let next := (smallS1 (rw.getD 1 0) + rw.getD 6 0
          + smallS0 (rw.getD 14 0) + rw.getD 15 0) % M32
      extendSchedule n (next :: rw)

/-- The 64-word message schedule of one block (given its 16 words). -/
def schedule (ws : List Nat) : List Nat := (extendSchedule 48 ws.reverse).reverse

/-- One compression round on the eight working registers. -/
def round1 (regs : List Nat) (kw : Nat × Nat) : List Nat :=
  match regs with
  | [a, b, c, d, e, f, g, h] =>
      let t1 := (h + bigS1 e + chF e f g + kw.1 + kw.2) % M32
      let t2 := (bigS0 a + majF a b c) % M32
      [(t1 + t2) % M32, a, b, c, (d + t1) % M32, e, f, g]
  | other => other

/-- Compress one 64-byte block into the running hash value. -/
def compressBlock (hs : List Nat) (block : List Nat) : List Nat :=
  let ws := schedule (toWords block)
  let regs := (sha256K.zip ws).foldl round1 hs
  (hs.zip regs).map (fun p => (p.1 + p.2) % M32)

/-- The eight 32-bit words of the SHA-256 digest of a byte list. -/
def sha256words (msg : List Nat) : List Nat :=
  (chunks64 (sha256pad msg)).foldl compressBlock sha256H0

/-- Lowercase hexadecimal digit for `n < 16`. -/
def hexChar (n : Nat) : Char :=
  if n < 10 then Char.ofNat (48 + n) else Char.ofNat (87 + n)

/-- Eight lowercase hex digits of a 32-bit word. -/
def hex8 (w : Nat) : List Char :=
  (List.range 8).map (fun i => hexChar ((w >>> (4 * (7 - i))) % 16))

/-- The lowercase hexadecimal SHA-256 digest of a byte list: the model of
`hashlib.sha256(data).hexdigest()`. -/
def sha256hex (msg : List Nat) : String :=
  String.mk ((sha256words msg).map hex8).flatten

/-! ### `src/setup.py`: constants, URL resolution and the pipeline steps -/

/-- The pinned version `JPEGOPTIM_VERSION = "1.5.4"` (setup.py line 19). -/
def JPEGOPTIM_VERSION : String := "1.5.4"

/-- The wrapper version `PY_VERSION = "1"` (setup.py line 20). -/
def PY_VERSION : String := "1"

/-- The checksum pinned for the linux archive (setup.py line 25). -/
def shaLinux : String :=
  "75f6975454bc33cce5ff46fd13809c010bec0f2c43de26a7e3b92cc6ece85bb4"

/-- The checksum pinned for the macOS archive (setup.py line 29). -/
def shaMacos : String :=
  "6a170a50fe0d5aa01636d64ae7647ac615867c184f2fb4ead557c284005deae8"

/-- The checksum pinned for the windows archive (setup.py line 33). -/
def shaWindows : String :=
  "70d9a26b3bd9c4331d10c03f7431afa8eecef0b1d6ceef30455f70433a3c3311"

/-- The `POSTFIX_SHA256` table of setup.py as an association list in insertion
order; the `("darwin", "arm64")` entry is the alias assigned on line 36,
aliased to the `("darwin", "x86_64")` pair. -/
def POSTFIX_SHA256 : List ((String × String) × (String × String)) :=
  [(("linux", "x86_64"), ("x64-linux.zip", shaLinux)),
   (("darwin", "x86_64"), ("x64-macos.zip", shaMacos)),
   (("win32", "AMD64"), ("x64-windows.zip", shaWindows)),
   (("darwin", "arm64"), ("x64-macos.zip", shaMacos))]

/-- Dictionary lookup `POSTFIX_SHA256[(sys.platform, platform.machine())]`:
the keys of the table are distinct, so first-match lookup is dict lookup. -/
def lookupPostfixSha (key : String × String) : Option (String × String) :=
  (POSTFIX_SHA256.find? (fun e => e.1 = key)).map (fun e => e.2)

/-- The URL built by `get_download_url` for a given pinned version and archive
postfix (the f-string of setup.py lines 41-44). -/
def downloadUrlFor (version pfix : String) : String :=
  "https://github.com/UnknownPlatypus/jpegoptim/releases/download/v"
    ++ version ++ "/jpegoptim-" ++ version ++ "-" ++ pfix

/-- Model of `get_download_url` with the pinned version made explicit: resolves the
platform pair in `POSTFIX_SHA256` (a missing pair raises `KeyError`) and
returns the download URL together with the expected checksum. -/
def get_download_url_v (version sysPlatform machine : String) :
    Except String (String × String) :=
  match lookupPostfixSha (sysPlatform, machine) with
  | none => Except.error "KeyError"
  | some (pfix, sha256) => Except.ok (downloadUrlFor version pfix, sha256)

/-- Model of `get_download_url` of setup.py: the pinned version is the module constant
`JPEGOPTIM_VERSION`. -/
def get_download_url (sysPlatform machine : String) :
    Except String (String × String) :=
  get_download_url_v JPEGOPTIM_VERSION sysPlatform machine

/-- An HTTP response as `download` observes it: a status code and the raw
body bytes. -/
structure HTTPResponse where
  code : Nat
  data : List Nat

/-- The checksum comparison at the end of `download` (setup.py lines 55-57):
compare the lowercase hex SHA-256 digest of the bytes with the expected
string and raise a mismatch error naming both when they differ. -/
def verifyChecksum (data : List Nat) (sha256 : String) : Except String (List Nat) :=
  let checksum := sha256hex data
  if checksum ≠ sha256 then
    Except.error ("sha256 mismatch, expected " ++ sha256 ++ ", got " ++ checksum)
  else
    Except.ok data

/-- Model of `download` of setup.py (lines 48-59): fail on any status other than 200
with a message naming the observed code, then verify the body's checksum. -/
def download (resp : HTTPResponse) (sha256 : String) : Except String (List Nat) :=
  let code := resp.code
  if code ≠ 200 then
    Except.error ("HTTP failure. Code: " ++ toString code)
  else
    verifyChecksum resp.data sha256

/-- Python `s.startswith(pre)`, decided over the character lists. -/
def startsWithPy (s pre : String) : Bool := pre.data.isPrefixOf s.data

/-- One entry of the zip archive, as `zipf.infolist()` lists it: its name and
its content bytes. -/
structure ZipEntry where
  filename : String
  content : List Nat

/-- Model of `zipf.read(name)`: the zip member with that name (when names repeat, the
name-to-info index keeps the last entry). -/
def zipRead (entries : List ZipEntry) (name : String) : Option (List Nat) :=
  ((entries.filter (fun e => e.filename = name)).getLast?).map (fun e => e.content)

/-- Model of `extract` of setup.py (lines 62-69): scan the archive's entries in order
and return the content of the first one whose name starts with `jpegoptim`,
read back through `zipf.read` by its filename; with no such entry, raise the
`unreachable` assertion naming the URL. -/
def extract (url : String) (entries : List ZipEntry) : Except String (List Nat) :=
  match entries.find? (fun info => startsWithPy info.filename "jpegoptim") with
  | some info =>
      match zipRead entries info.filename with
      | some content => Except.ok content
      | none => Except.error "KeyError"
  | none => Except.error ("unreachable " ++ url)

/-! ### The filesystem model for `save_executable` -/

/-- A filesystem: the set of directories that exist and, per file path, its
content bytes and its permission-bit word (`st_mode`'s permission part). -/
structure FS where
  dirs : List String
  files : List (String × List Nat × Nat)

/-- Model of `os.stat(path).st_mode` restricted to what the model keeps: the mode word
of the file at `path`. -/
def FS.statMode (fs : FS) (path : String) : Option Nat :=
  (fs.files.find? (fun f => f.1 = path)).map (fun f => f.2.2)

/-- Model of `open(path, "wb")` followed by `write`: truncate an existing file (its
mode survives) or create the file with the mode the environment gives fresh
files (`createMode`, i.e. 0o666 masked by the process umask). -/
def FS.writeFile (fs : FS) (path : String) (data : List Nat) (createMode : Nat) : FS :=
  match fs.files.find? (fun f => f.1 = path) with
  | some f =>
      { fs with files := (path, data, f.2.2) :: fs.files.filter (fun g => ¬g.1 = path) }
  | none => { fs with files := (path, data, createMode) :: fs.files }

/-- Model of `os.chmod(path, mode)`. -/
def FS.chmod (fs : FS) (path : String) (mode : Nat) : FS :=
  { fs with files := fs.files.map (fun f => if f.1 = path then (f.1, f.2.1, mode) else f) }

/-- The bit `stat.S_IXUSR` (0o100). -/
def S_IXUSR : Nat := 64

/-- The bit `stat.S_IXGRP` (0o010). -/
def S_IXGRP : Nat := 8

/-- The bit `stat.S_IXOTH` (0o001). -/
def S_IXOTH : Nat := 1

/-- Model of `os.path.join(base_dir, exe)` on a POSIX path (for the relative archive
member names at hand: append, inserting a separator unless one ends the
base). -/
def joinPath (base exe : String) : String :=
  if "/".data.isSuffixOf base.data then base ++ exe else base ++ "/" ++ exe

/-- Model of `save_executable` of setup.py (lines 72-84): pick the output name by
platform, `os.makedirs(base_dir)` (raising `FileExistsError` when the
directory already exists), write the bytes, read the resulting mode back and
add the user/group/other execute bits with `os.chmod`. -/
def save_executable (data : List Nat) (base_dir sysPlatform : String)
    (createMode : Nat) (fs : FS) : Except String FS :=
  let exe := if sysPlatform ≠ "win32" then "jpegoptim" else "jpegoptim.exe"
  let output_path := joinPath base_dir exe
  if fs.dirs.contains base_dir then
    Except.error ("FileExistsError: " ++ base_dir)
  else
    let fs1 : FS := { fs with dirs := base_dir :: fs.dirs }
    let fs2 := fs1.writeFile output_path data createMode
    match fs2.statMode output_path with
    | none => Except.error "FileNotFoundError"
    | some mode =>
        let mode := mode ||| (S_IXUSR ||| S_IXGRP ||| S_IXOTH)
        Except.ok (fs2.chmod output_path mode)

/-! ### `fetch_binaries.run`: the whole pipeline -/

/-- The environment a `fetch_binaries.run` invocation observes: the platform
identifiers, the network (a response per URL), the zip container reader (the
`zipfile` library: entry list of an archive's bytes, or a `BadZipFile`
error), the build staging directory, the fresh-file mode the environment
gives created files, and the filesystem. -/
structure PipelineEnv where
  sysPlatform : String
  machine : String
  http : String → HTTPResponse
  zipOf : List Nat → Except String (List ZipEntry)
  buildTemp : String
  createMode : Nat
  fs : FS

/-- Model of `fetch_binaries.run` of setup.py (lines 104-109): resolve the URL and
checksum, download and verify, extract, and save the executable into the
build staging directory. Every failure aborts the remainder. -/
def fetchBinariesRun (env : PipelineEnv) : Except String FS :=
  match get_download_url env.sysPlatform env.machine with
  | Except.error e => Except.error e
  | Except.ok (url, sha256) =>
    match download (env.http url) sha256 with
    | Except.error e => Except.error e
    | Except.ok archive =>
      match env.zipOf archive with
      | Except.error e => Except.error e
      | Except.ok entries =>
        match extract url entries with
        | Except.error e => Except.error e
        | Except.ok data =>
            save_executable data env.buildTemp env.sysPlatform env.createMode env.fs

/-! ### `src/scripts/bump_jpegoptim.py`

The maintenance script edits `setup.py` with `re.search`/`re.sub` over three
concrete patterns.  Each pattern is embedded as a dedicated scanner over
`List Char` with Python's semantics for exactly the constructs the patterns
use: leftmost match, greedy `\d+`/`\s*`/`.*` (each is followed by a character
its class excludes, so greedy matching never needs to backtrack), `.`
matching any character but a newline, and `re.sub` replacing every
non-overlapping match left to right. -/

/-- Python's `\s` class (ASCII range): space, tab, newline, carriage return,
vertical tab, form feed. -/
def isSpacePy (c : Char) : Bool :=
  c = ' ' || c = '\t' || c = '\n' || c = '\r' || c = '\x0b' || c = '\x0c'

/-- Match a literal pattern at the head of the input; `some rest` is the
input after the literal. -/
def matchLit : List Char → List Char → Option (List Char)
  | [], s => some s
  | _ :: _, [] => none
  | p :: ps, c :: cs => if p = c then matchLit ps cs else none

/-- Match a pattern of plain characters in which `.` stands for any character
other than a newline (the only regex metacharacter the archive postfixes
contain). -/
def matchLitDotAny : List Char → List Char → Option (List Char)
  | [], s => some s
  | _ :: _, [] => none
  | p :: ps, c :: cs =>
      if p = '.' then (if c = '\n' then none else matchLitDotAny ps cs)
      else if p = c then matchLitDotAny ps cs else none

/-- Match `PY_VERSION = "(\d)"` at the head of the input:
`some (group1, rest)` with the captured digit. -/
def matchPyVersionAt (s : List Char) : Option (Char × List Char) :=
  match matchLit "PY_VERSION = \"".data s with
  | none => none
  | some r1 =>
    match r1 with
    | d :: '"' :: r2 => if d.isDigit then some (d, r2) else none
    | _ => none

/-- Match `JPEGOPTIM_VERSION = "(\d+\.\d+\.\d+)"` at the head of the input:
`some (group1, rest)` with the captured dotted version. -/
def matchJpegVersionAt (s : List Char) : Option (List Char × List Char) :=
  match matchLit "JPEGOPTIM_VERSION = \"".data s with
  | none => none
  | some r1 =>
    let (d1, r2) := r1.span Char.isDigit
    match d1, r2 with
    | _ :: _, '.' :: r3 =>
      let (d2, r4) := r3.span Char.isDigit
      match d2, r4 with
      | _ :: _, '.' :: r5 =>
        let (d3, r6) := r5.span Char.isDigit
        match d3, r6 with
        | _ :: _, '"' :: r7 => some (d1 ++ '.' :: d2 ++ '.' :: d3, r7)
        | _, _ => none
      | _, _ => none
    | _, _ => none

/-- Match `{postfix}",(\n\s*)".*"` at the head of the input (`postfix` taken
with `.` as the any-character class, `.*` greedy on the rest of the line):
`some (group1, rest)` with the captured `\n\s*` run. -/
def matchShaPatAt (pfix : List Char) (s : List Char) : Option (List Char × List Char) :=
  match matchLitDotAny pfix s with
  | none => none
  | some r1 =>
    match matchLit "\",".data r1 with
    | none => none
    | some r2 =>
      match r2 with
      | '\n' :: r3 =>
        let (sp, r4) := r3.span isSpacePy
        match r4 with
        | '"' :: r5 =>
          let (line, rest) := r5.span (fun c => ¬c = '\n')
          let (tailRev, quoteRev) := line.reverse.span (fun c => ¬c = '"')
          match quoteRev with
          | '"' :: _ => some ('\n' :: sp, tailRev.reverse ++ rest)
          | _ => none
        | _ => none
      | _ => none

/-- Model of `re.search`: scan left to right for the first position where the pattern
matcher succeeds and return its capture. -/
def reSearch {α : Type} (atMatch : List Char → Option (α × List Char)) :
    List Char → Option α
  | [] => none
  | c :: cs =>
    match atMatch (c :: cs) with
    | some (g, _) => some g
    | none => reSearch atMatch cs

/-- Model of `re.sub`, fuel-driven: replace every non-overlapping match left to right,
where `atMatch` yields the replacement text for a match at the head together
with the input past the match. The fuel (the input length) is enough because
every pattern here consumes at least one character. -/
def subAllF (atMatch : List Char → Option (List Char × List Char)) :
    Nat → List Char → List Char
  | 0, s => s
  | _ + 1, [] => []
  | fuel + 1, c :: cs =>
    match atMatch (c :: cs) with
    | some (rep, rest) => rep ++ subAllF atMatch fuel rest
    | none => c :: subAllF atMatch fuel cs

/-- Model of `re.sub` over a whole input. -/
def subAll (atMatch : List Char → Option (List Char × List Char))
    (s : List Char) : List Char :=
  subAllF atMatch s.length s

/-- Model of `re.search(_PY_VERSION_RE, content)[1]`. -/
def reSearchPyVersion (content : String) : Option String :=
  (reSearch matchPyVersionAt content.data).map (fun d => String.mk [d])

/-- Model of `re.sub(_PY_VERSION_RE, ...)` with replacement `PY_VERSION = "{next}"`. -/
def reSubPyVersion (next content : String) : String :=
  String.mk (subAll
    (fun s => (matchPyVersionAt s).map
      (fun g => (("PY_VERSION = \"" ++ next ++ "\"").data, g.2)))
    content.data)

/-- Model of `re.search(_JPEGOPTIM_VERSION_RE, content)[1]`. -/
def reSearchJpegVersion (content : String) : Option String :=
  (reSearch matchJpegVersionAt content.data).map String.mk

/-- Model of `re.sub(_JPEGOPTIM_VERSION_RE, ...)` with replacement `JPEGOPTIM_VERSION = "{next}"`. -/
def reSubJpegVersion (next content : String) : String :=
  String.mk (subAll
    (fun s => (matchJpegVersionAt s).map
      (fun g => (("JPEGOPTIM_VERSION = \"" ++ next ++ "\"").data, g.2)))
    content.data)

/-- Model of the checksum substitution `re.sub` with pattern `{postfix}",(\n\s*)".*"` and replacement `{postfix}",\1"{sha}"`:
the replacement splices the captured `\n\s*` run back between the literal
pieces. -/
def reSubSha (pfix sha content : String) : String :=
  String.mk (subAll
    (fun s => (matchShaPatAt pfix.data s).map
      (fun g => (pfix.data ++ "\",".data ++ g.1 ++ ('"' :: sha.data) ++ ['"'], g.2)))
    content.data)

/-- Python `int(...)` on a string of decimal digits, over the character list. -/
def parseNatDigits (cs : List Char) : Nat :=
  cs.foldl (fun n c => n * 10 + (c.toNat - 48)) 0

/-- The parsed command line of the script: exactly one of the two modes. -/
structure BumpArgs where
  bump_minor : Bool
  target_version : String

/-- The suffix list of `_get_sha_dict` (bump_jpegoptim.py line 21). Note
`x64-osx.zip`, where the table in setup.py says `x64-macos.zip`. -/
def bumpSuffixes : List String := ["x64-linux.zip", "x64-osx.zip", "x64-windows.zip"]

/-- The download URL `_get_sha_dict` fetches (bump_jpegoptim.py lines 22-25);
note the host path `tjko/jpegoptim`, not the `UnknownPlatypus/jpegoptim` that
setup.py itself downloads from. -/
def bumpDownloadUrl (target_version suffix : String) : String :=
  "https://github.com/tjko/jpegoptim/releases/download/v" ++ target_version
    ++ "/jpegoptim-" ++ target_version ++ "-" ++ suffix

/-- Model of `_get_sha_dict`: per suffix, the hex SHA-256 digest of the bytes the
network (`fetch`) serves for the release URL; insertion order preserved. -/
def getShaDict (fetch : String → List Nat) (target_version : String) :
    List (String × String) :=
  bumpSuffixes.map (fun suffix =>
    (suffix, sha256hex (fetch (bumpDownloadUrl target_version suffix))))

/-- The error `re.search(...)[1]` raises when the wrapper-version pattern has
no match (`None` is not subscriptable). -/
def errNoPyVersionMatch : String :=
  "TypeError: _PY_VERSION_RE matched nothing"

/-- The error `re.search(...)[1]` raises when the pinned-version pattern has
no match. -/
def errNoJpegVersionMatch : String :=
  "TypeError: _JPEGOPTIM_VERSION_RE matched nothing"

/-- Model of `_update_setup_py_file` (bump_jpegoptim.py lines 32-66), acting on the
descriptor text instead of the file: search the current wrapper version
(raising when the pattern finds nothing), bump or reset it and substitute it
back; search the pinned version on the substituted text; in target-version
mode also substitute the pinned version and then each checksum of `sha_dict`
in order. Returns the new text and the combined version string. The captured
wrapper version is a single digit, so its `int(...)` parse cannot fail. -/
def updateSetupPyFile (args : BumpArgs) (sha_dict : Option (List (String × String)))
    (content : String) : Except String (String × String) :=
  match reSearchPyVersion content with
  | none => Except.error errNoPyVersionMatch
  | some current_py_version =>
    let next_py_version : Nat :=
      if args.bump_minor then parseNatDigits current_py_version.data + 1 else 1
    let content1 := reSubPyVersion (toString next_py_version) content
    match reSearchJpegVersion content1 with
    | none => Except.error errNoJpegVersionMatch
    | some found_version =>
      match sha_dict with
      | none => Except.ok (content1, found_version ++ "." ++ toString next_py_version)
      | some sd =>
        let next_version := args.target_version
        let content2 := reSubJpegVersion next_version content1
        let content3 := sd.foldl (fun c ps => reSubSha ps.1 ps.2 c) content2
        Except.ok (content3, next_version ++ "." ++ toString next_py_version)

/-- The version/checksum region of `src/setup.py` (lines 19-36), with the
five substitutable fields (pinned version, wrapper version, and the three
checksums) as parameters; no other part of setup.py contains an occurrence
of any of the script's three patterns. -/
def setupPyRegion (jv pyv shaL shaM shaW : String) : String :=
  "JPEGOPTIM_VERSION = \"" ++ jv ++ "\"\n" ++
  "PY_VERSION = \"" ++ pyv ++ "\"  # Python wrapper version\n" ++
  "\n" ++
  "POSTFIX_SHA256 = \x7b\n" ++
  "    (\"linux\", \"x86_64\"): (\n" ++
  "        \"x64-linux.zip\",\n" ++
  "        \"" ++ shaL ++ "\",\n" ++
  "    ),\n" ++
  "    (\"darwin\", \"x86_64\"): (\n" ++
  "        \"x64-macos.zip\",\n" ++
  "        \"" ++ shaM ++ "\",\n" ++
  "    ),\n" ++
  "    (\"win32\", \"AMD64\"): (\n" ++
  "        \"x64-windows.zip\",\n" ++
  "        \"" ++ shaW ++ "\",\n" ++
  "    ),\n" ++
  "\x7d\n" ++
  "POSTFIX_SHA256[(\"darwin\", \"arm64\")] = POSTFIX_SHA256[(\"darwin\", \"x86_64\")]\n"

/-- The setup.py constants region as the repository pins it. -/
def setupPyContent : String :=
  setupPyRegion JPEGOPTIM_VERSION PY_VERSION shaLinux shaMacos shaWindows

/-- The SHA-256 digest of the empty byte string, used as the digest every
archive gets under the constant network oracle `fun _ => []`. -/
def sha256empty : String :=
  "e3b0c44298fc1c149afbf4c8996fb92427ae41e4649b934ca495991b7852b855"

/-- A string ends with a suffix: some prefix completes it. -/
def endsWithStr (s suf : String) : Prop := ∃ t, s = t ++ suf

/-! ### Helper lemmas -/

theorem strDataAppend (a b : String) : (a ++ b).data = a.data ++ b.data := by
  cases a; cases b; rfl

theorem strEqOfDataEq {a b : String} (h : a.data = b.data) : a = b := by
  cases a; cases b; exact congrArg String.mk h

theorem find?_pred_eq_true {α : Type} (p : α → Bool) :
    ∀ (l : List α) (a : α), l.find? p = some a → p a = true := by
  intro l
  induction l with
  | nil => intro a h; simp [List.find?] at h
  | cons b l ih =>
    intro a h
    by_cases hb : p b
    · rw [List.find?_cons_of_pos _ hb] at h
      cases h
      simpa using hb
    · rw [List.find?_cons_of_neg _ hb] at h
      exact ih a h

/-- Lemma: `download` returns bytes exactly when the status is 200 and the digest of
the body is the expected checksum, and then it returns the body itself. -/
theorem download_ok_iff (resp : HTTPResponse) (sha256 : String) (d : List Nat) :
    download resp sha256 = Except.ok d ↔
      resp.code = 200 ∧ sha256hex resp.data = sha256 ∧ d = resp.data := by
  unfold download verifyChecksum
  by_cases h1 : resp.code = 200 <;> by_cases h2 : sha256hex resp.data = sha256 <;>
    simp [h1, h2, eq_comm]

/-- A failed status or a digest mismatch makes `download` fail. -/
theorem download_error_of_bad (resp : HTTPResponse) (sha256 : String)
    (h : resp.code ≠ 200 ∨ sha256hex resp.data ≠ sha256) :
    ∃ msg, download resp sha256 = Except.error msg := by
  unfold download verifyChecksum
  by_cases h1 : resp.code = 200 <;> by_cases h2 : sha256hex resp.data = sha256 <;>
    simp [h1, h2] at h ⊢

/-! ### The claims -/

/-- C2: the Verifier succeeds exactly when the lowercase hex SHA-256 digest
of the bytes equals the expected string character for character, and on a
mismatch it fails with a message that contains both the expected and the
computed digest. -/
theorem verifier_exact_match (data : List Nat) ( sha256 : String) :
    (verifyChecksum data sha256 = Except.ok data ↔ sha256hex data = sha256) ∧
    (sha256hex data ≠ sha256 →
      ∃ msg, verifyChecksum data sha256 = Except.error msg ∧
        ("sha256 mismatch" : String).data <+: msg.data ∧
        sha256.data <:+: msg.data ∧ (sha256hex data).data <:+: msg.data) := by
  constructor
  · by_cases h : sha256hex data = sha256 <;> simp [verifyChecksum, h]
  · intro h
    refine ⟨"sha256 mismatch, expected " ++ sha256 ++ ", got " ++ sha256hex data,
      by simp [verifyChecksum, h], ?_, ?_, ?_⟩
    · refine ⟨(", expected " : String).data ++ sha256.data
        ++ (", got " : String).data ++ (sha256hex data).data, ?_⟩
      have e1 : ("sha256 mismatch, expected " : String).data
          = ("sha256 mismatch" : String).data ++ (", expected " : String).data := by decide
      simp [strDataAppend, e1, List.append_assoc]
    · refine ⟨("sha256 mismatch, expected " : String).data,
        (", got " : String).data ++ (sha256hex data).data, ?_⟩
      simp [strDataAppend, List.append_assoc]
    · refine ⟨("sha256 mismatch, expected " : String).data ++ sha256.data
        ++ (", got " : String).data, [], ?_⟩
      simp [strDataAppend, List.append_assoc]

/-- C2, witness: on the empty byte buffer and the expected string `"00"` the
Verifier fails with a message containing both digests. -/
theorem verifier_exact_match_witness :
    ∃ msg, verifyChecksum [] "00" = Except.error msg ∧
      ("sha256 mismatch" : String).data <+: msg.data ∧
      ("00" : String).data <:+: msg.data ∧ (sha256hex []).data <:+: msg.data :=
  (verifier_exact_match [] "00").2 (by decide)

/-- C4: `extract` fails with the `unreachable` assertion exactly when no
entry of the archive (in particular, of the empty archive) has a name
starting with `jpegoptim`. -/
theorem extract_unreachable_iff (url : String) (entries : List ZipEntry) :
    extract url entries = Except.error ("unreachable " ++ url) ↔
      ∀ e ∈ entries, startsWithPy e.filename "jpegoptim" = false := by
  unfold extract
  cases hf : entries.find? (fun info => startsWithPy info.filename "jpegoptim") with
  | none =>
    have hall := List.find?_eq_none.mp hf
    apply iff_of_true rfl
    intro e he
    simpa using hall e he
  | some info =>
    have hpred : startsWithPy info.filename "jpegoptim" = true := by
      simpa using find?_pred_eq_true _ entries info hf
    have hmem : info ∈ entries := List.mem_of_find?_eq_some hf
    have hficons : info ∈ entries.filter (fun e => e.filename = info.filename) := by
      simp [List.mem_filter, hmem]
    apply iff_of_false
    · cases hg : (entries.filter (fun e => e.filename = info.filename)).getLast? with
      | none =>
        rw [List.getLast?_eq_none_iff] at hg
        rw [hg] at hficons
        simp at hficons
      | some e => simp [zipRead, hg]
    · intro hall
      have := hall info hmem
      rw [hpred] at this
      exact Bool.noConfusion this

/-- C6: on an archive with the single entry `jpegoptim-tool`, `extract`
returns that entry's bytes unchanged. -/
theorem extract_roundtrip (url : String) (bs : List Nat) :
    extract url [⟨"jpegoptim-tool", bs⟩] = Except.ok bs := rfl

/-- C9: on any status other than 200, `download` fails with a message
carrying the observed status code, and it returns bytes (the raw response
body) only when the status is 200. -/
theorem download_http_status (resp : HTTPResponse) ( sha256 : String) :
    (resp.code ≠ 200 →
      ∃ msg, download resp sha256 = Except.error msg ∧
        ("HTTP failure. Code: " : String).data <+: msg.data ∧
        (toString resp.code).data <:+: msg.data) ∧
    (∀ data, download resp sha256 = Except.ok data →
      resp.code = 200 ∧ data = resp.data) := by
  constructor
  · intro h
    refine ⟨"HTTP failure. Code: " ++ toString resp.code,
      by simp [download, h], ?_, ?_⟩
    · exact ⟨(toString resp.code).data, by simp [strDataAppend]⟩
    · exact ⟨("HTTP failure. Code: " : String).data, [], by simp [strDataAppend]⟩
  · intro d h
    have := (download_ok_iff resp sha256 d).mp h
    exact ⟨this.1, this.2.2⟩

/-- C9, witness: a 404 response makes `download` fail with a message
carrying the code. -/
theorem download_http_status_witness :
    ∃ msg, download ⟨404, []⟩ "" = Except.error msg ∧
      ("HTTP failure. Code: " : String).data <+: msg.data ∧
      (toString (404 : Nat)).data <:+: msg.data :=
  (download_http_status ⟨404, []⟩ "").1 (by decide)

/-- C7: when the destination directory already exists, `save_executable`
fails with the filesystem's `FileExistsError` (and returns no filesystem, so
nothing is overwritten). -/
theorem save_executable_dir_exists_error (data : List Nat)
    (base_dir sysPlatform : String) (createMode : Nat) (fs : FS)
    (h : fs.dirs.contains base_dir = true) :
    save_executable data base_dir sysPlatform createMode fs
      = Except.error ("FileExistsError: " ++ base_dir) := by
  unfold save_executable
  rw [h]
  rfl

/-- C7, witness: saving into the already-existing directory `bin` fails. -/
theorem save_executable_dir_exists_error_witness :
    save_executable [] "bin" "linux" 420 ⟨["bin"], []⟩
      = Except.error ("FileExistsError: " ++ "bin") :=
  save_executable_dir_exists_error [] "bin" "linux" 420 ⟨["bin"], []⟩ (by decide)

theorem statMode_writeFile_self (fs : FS) (p : String) (data : List Nat) (cm : Nat) :
    ∃ m0, (fs.writeFile p data cm).statMode p = some m0 := by
  unfold FS.writeFile
  cases hf : fs.files.find? (fun f => f.1 = p) with
  | some f => exact ⟨f.2.2, by simp [FS.statMode, List.find?_cons]⟩
  | none => exact ⟨cm, by simp [FS.statMode, List.find?_cons]⟩

theorem find?_map_chmod (p : String) (m' : Nat) :
    ∀ (files : List (String × List Nat × Nat)),
      (files.map (fun f => if f.1 = p then (f.1, f.2.1, m') else f)).find?
          (fun f => f.1 = p)
        = (files.find? (fun f => f.1 = p)).map (fun f => (f.1, f.2.1, m')) := by
  intro files
  induction files with
  | nil => rfl
  | cons f rest ih => by_cases hf : f.1 = p <;> simp [hf, List.find?_cons, ih]

theorem statMode_chmod_self (fs : FS) (p : String) (m' : Nat) :
    (fs.chmod p m').statMode p = (fs.statMode p).map (fun _ => m') := by
  unfold FS.chmod FS.statMode
  rw [find?_map_chmod]
  cases fs.files.find? (fun f => f.1 = p) <;> rfl

theorem testBit_73_eq_false : ∀ (i : Nat), i ≠ 0 → i ≠ 3 → i ≠ 6 →
    Nat.testBit 73 i = false := by
  intro i h0 h3 h6
  match i, h0, h3, h6 with
  | 0, h0, _, _ => exact absurd rfl h0
  | 1, _, _, _ => decide
  | 2, _, _, _ => decide
  | 3, _, h3, _ => exact absurd rfl h3
  | 4, _, _, _ => decide
  | 5, _, _, _ => decide
  | 6, _, _, h6 => exact absurd rfl h6
  | (k + 7), _, _, _ =>
    apply Nat.testBit_eq_false_of_lt
    calc 73 < 2 ^ 7 := by decide
      _ ≤ 2 ^ (k + 7) := Nat.pow_le_pow_right (by decide) (by omega)

/-- C5: whenever `save_executable` succeeds, the saved file's mode is the
mode it had right after being written with the three execute bits added: the
bits at positions 0, 3 and 6 are set, and every other bit is exactly the
written file's bit. -/
theorem save_executable_adds_exec_bits (data : List Nat)
    (base_dir sysPlatform : String) (createMode : Nat) (fs fs' : FS)
    (h : save_executable data base_dir sysPlatform createMode fs = Except.ok fs') :
    ∃ m0,
      (FS.writeFile { fs with dirs := base_dir :: fs.dirs }
          (joinPath base_dir (if sysPlatform ≠ "win32" then "jpegoptim" else "jpegoptim.exe"))
          data createMode).statMode
        (joinPath base_dir (if sysPlatform ≠ "win32" then "jpegoptim" else "jpegoptim.exe"))
        = some m0 ∧
      fs'.statMode
        (joinPath base_dir (if sysPlatform ≠ "win32" then "jpegoptim" else "jpegoptim.exe"))
        = some (m0 ||| (S_IXUSR ||| S_IXGRP ||| S_IXOTH)) ∧
      Nat.testBit (m0 ||| (S_IXUSR ||| S_IXGRP ||| S_IXOTH)) 0 = true ∧
      Nat.testBit (m0 ||| (S_IXUSR ||| S_IXGRP ||| S_IXOTH)) 3 = true ∧
      Nat.testBit (m0 ||| (S_IXUSR ||| S_IXGRP ||| S_IXOTH)) 6 = true ∧
      (∀ i, i ≠ 0 → i ≠ 3 → i ≠ 6 →
        Nat.testBit (m0 ||| (S_IXUSR ||| S_IXGRP ||| S_IXOTH)) i = Nat.testBit m0 i) := by
  have e73 : S_IXUSR ||| S_IXGRP ||| S_IXOTH = 73 := rfl
  unfold save_executable at h
  by_cases hd : fs.dirs.contains base_dir = true
  · rw [hd] at h
    simp at h
  · rw [Bool.not_eq_true] at hd
    rw [hd] at h
    simp only [Bool.false_eq_true, if_false] at h
    obtain ⟨m0, hm0⟩ := statMode_writeFile_self
      { fs with dirs := base_dir :: fs.dirs }
      (joinPath base_dir (if sysPlatform ≠ "win32" then "jpegoptim" else "jpegoptim.exe"))
      data createMode
    rw [hm0] at h
    simp only [Except.ok.injEq] at h
    refine ⟨m0, hm0, ?_, ?_, ?_, ?_, ?_⟩
    · rw [← h, statMode_chmod_self, hm0]
      rfl
    · rw [e73, Nat.testBit_lor]
      simp [show Nat.testBit 73 0 = true from rfl]
    · rw [e73, Nat.testBit_lor]
      simp [show Nat.testBit 73 3 = true from rfl]
    · rw [e73, Nat.testBit_lor]
      simp [show Nat.testBit 73 6 = true from rfl]
    · intro i h0 h3 h6
      rw [e73, Nat.testBit_lor, testBit_73_eq_false i h0 h3 h6, Bool.or_false]

/-- C5, witness: saving one byte into fresh directory `bin` on linux with
fresh-file mode 0o644 succeeds, and the installed file's mode is
0o644 with the three execute bits added (0o755). -/
theorem save_executable_adds_exec_bits_witness :
    ∃ m0,
      (FS.writeFile { (⟨[], []⟩ : FS) with dirs := "bin" :: (⟨[], []⟩ : FS).dirs }
          (joinPath "bin" (if "linux" ≠ "win32" then "jpegoptim" else "jpegoptim.exe"))
          [1] 420).statMode
        (joinPath "bin" (if "linux" ≠ "win32" then "jpegoptim" else "jpegoptim.exe"))
        = some m0 ∧
      (FS.mk ["bin"] [("bin/jpegoptim", [1], 493)]).statMode
        (joinPath "bin" (if "linux" ≠ "win32" then "jpegoptim" else "jpegoptim.exe"))
        = some (m0 ||| (S_IXUSR ||| S_IXGRP ||| S_IXOTH)) ∧
      Nat.testBit (m0 ||| (S_IXUSR ||| S_IXGRP ||| S_IXOTH)) 0 = true ∧
      Nat.testBit (m0 ||| (S_IXUSR ||| S_IXGRP ||| S_IXOTH)) 3 = true ∧
      Nat.testBit (m0 ||| (S_IXUSR ||| S_IXGRP ||| S_IXOTH)) 6 = true ∧
      (∀ i, i ≠ 0 → i ≠ 3 → i ≠ 6 →
        Nat.testBit (m0 ||| (S_IXUSR ||| S_IXGRP ||| S_IXOTH)) i = Nat.testBit m0 i) :=
  save_executable_adds_exec_bits [1] "bin" "linux" 420 ⟨[], []⟩
    ⟨["bin"], [("bin/jpegoptim", [1], 493)]⟩ rfl

/-- C3: the fetch pipeline installs nothing unverified: a successful run
implies the resolved checksum matched the digest of the downloaded body (and
the status was 200), and any checksum mismatch or HTTP failure makes the
whole run fail before anything is extracted or saved. -/
theorem fetch_pipeline_no_unverified_install (env : PipelineEnv) :
    (∀ fs', fetchBinariesRun env = Except.ok fs' →
      ∃ url sha256, get_download_url env.sysPlatform env.machine = Except.ok (url, sha256) ∧
        (env.http url).code = 200 ∧ sha256hex (env.http url).data = sha256) ∧
    (∀ url sha256, get_download_url env.sysPlatform env.machine = Except.ok (url, sha256) →
      ((env.http url).code ≠ 200 ∨ sha256hex (env.http url).data ≠ sha256) →
      ∃ msg, fetchBinariesRun env = Except.error msg) := by
  constructor
  · intro fs' h
    unfold fetchBinariesRun at h
    cases hu : get_download_url env.sysPlatform env.machine with
    | error e => rw [hu] at h; simp at h
    | ok us =>
      obtain ⟨url, sha256⟩ := us
      rw [hu] at h
      dsimp only at h
      refine ⟨url, sha256, rfl, ?_⟩
      cases hdl : download (env.http url) sha256 with
      | error e => rw [hdl] at h; simp at h
      | ok archive =>
        have hok := (download_ok_iff (env.http url) sha256 archive).mp hdl
        exact ⟨hok.1, hok.2.1⟩
  · intro url sha256 hu hbad
    obtain ⟨msg, hmsg⟩ := download_error_of_bad (env.http url) sha256 hbad
    refine ⟨msg, ?_⟩
    unfold fetchBinariesRun
    rw [hu]
    dsimp only
    rw [hmsg]

/-- C3, witness: with the linux platform resolved and the network serving a
single zero byte (whose digest is not the pinned linux checksum), the run
fails. -/
theorem fetch_pipeline_no_unverified_install_witness :
    ∃ msg, fetchBinariesRun
      ⟨"linux", "x86_64", fun _ => ⟨200, [0]⟩, fun _ => Except.ok [], "bin", 420, ⟨[], []⟩⟩
      = Except.error msg :=
  (fetch_pipeline_no_unverified_install
    ⟨"linux", "x86_64", fun _ => ⟨200, [0]⟩, fun _ => Except.ok [], "bin", 420, ⟨[], []⟩⟩).2
    (downloadUrlFor JPEGOPTIM_VERSION "x64-linux.zip") shaLinux rfl
    (Or.inr (by decide))

theorem strAppendAssoc (a b c : String) : a ++ b ++ c = a ++ (b ++ c) := by
  cases a; cases b; cases c
  show String.mk _ = String.mk _
  rw [List.append_assoc]

/-- C8: the platform table resolves (`linux`, `x86_64`) to the archive suffix
`x64-linux.zip`, and for every pinned version `V` the download URL ends in
`jpegoptim-V-x64-linux.zip`; for pinned version `1.5.5` it ends in the
literal `jpegoptim-1.5.5-x64-linux.zip`. -/
theorem linux_resolver_and_url :
    lookupPostfixSha ("linux", "x86_64") = some ("x64-linux.zip", shaLinux) ∧
    (∀ V, get_download_url_v V "linux" "x86_64"
        = Except.ok (downloadUrlFor V "x64-linux.zip", shaLinux) ∧
      endsWithStr (downloadUrlFor V "x64-linux.zip")
        ("jpegoptim-" ++ V ++ "-x64-linux.zip")) ∧
    endsWithStr (downloadUrlFor "1.5.5" "x64-linux.zip")
      "jpegoptim-1.5.5-x64-linux.zip" := by
  refine ⟨rfl, ?_, ?_⟩
  · intro V
    refine ⟨rfl, ?_⟩
    refine ⟨"https://github.com/UnknownPlatypus/jpegoptim/releases/download/v"
      ++ V ++ "/", ?_⟩
    apply strEqOfDataEq
    have e1 : ("/jpegoptim-" : String).data
        = ("/" : String).data ++ ("jpegoptim-" : String).data := by decide
    have e2 : ("-" : String).data ++ ("x64-linux.zip" : String).data
        = ("-x64-linux.zip" : String).data := by decide
    simp only [downloadUrlFor, strDataAppend, e1, List.append_assoc, e2,
      List.cons_append, List.nil_append]
  · exact ⟨"https://github.com/UnknownPlatypus/jpegoptim/releases/download/v1.5.5/",
      by decide⟩

set_option maxRecDepth 40000 in
set_option maxHeartbeats 4000000 in
/-- C1: in target-version mode to `1.5.6` (network modelled as serving empty
archives, whose digest is `sha256empty`), the tool rewrites the pinned
version, resets the wrapper version and returns `1.5.6.1`, and it replaces
the linux and windows checksums — but the macOS checksum is left at its old
value, because `_get_sha_dict`'s key is `x64-osx.zip` while the descriptor's
entry is `x64-macos.zip`, so that substitution matches nothing. -/
theorem bump_target_macos_checksum_left_stale :
    getShaDict (fun _ => []) "1.5.6"
      = [("x64-linux.zip", sha256empty), ("x64-osx.zip", sha256empty),
         ("x64-windows.zip", sha256empty)] ∧
    updateSetupPyFile ⟨false, "1.5.6"⟩
      (some [("x64-linux.zip", sha256empty), ("x64-osx.zip", sha256empty),
             ("x64-windows.zip", sha256empty)])
      setupPyContent
      = Except.ok (setupPyRegion "1.5.6" "1" sha256empty shaMacos sha256empty,
          "1.5.6.1") ∧
    shaMacos ≠ sha256empty :=
  ⟨rfl, rfl, by decide⟩

set_option maxRecDepth 40000 in
set_option maxHeartbeats 4000000 in
/-- C10: bump-minor mode on wrapper version `9` writes `10` into the
descriptor and returns `1.5.4.10`; the single-digit wrapper-version pattern
then finds no match in the rewritten descriptor, so every further run of the
tool, in either mode, fails when searching for the wrapper-version line. -/
theorem bump_minor_wrapper_version_cap :
    updateSetupPyFile ⟨true, ""⟩ none
        (setupPyRegion JPEGOPTIM_VERSION "9" shaLinux shaMacos shaWindows)
      = Except.ok (setupPyRegion JPEGOPTIM_VERSION "10" shaLinux shaMacos shaWindows,
          "1.5.4.10") ∧
    reSearchPyVersion (setupPyRegion JPEGOPTIM_VERSION "10" shaLinux shaMacos shaWindows)
      = none ∧
    (∀ (args : BumpArgs) (sha_dict : Option (List (String × String))),
      updateSetupPyFile args sha_dict
          (setupPyRegion JPEGOPTIM_VERSION "10" shaLinux shaMacos shaWindows)
        = Except.error errNoPyVersionMatch) :=
  ⟨rfl, rfl, fun _ _ => rfl⟩

end JpegoptimPy
